import Mathlib

/-!
Verification of the template-resolution and project-layout generator of
create-web-extension (src/src/index.js: the CLI entry plus the
createExtension module).

The generator is a one-shot file emitter: a resolved configuration
(language variant, UI framework, manifest schema version, permission set,
project name) determines an ordered list of filesystem writes.  We embed
the configuration record, the manifest document builder
(createManifestFile), the package-descriptor builder (createPackageJson),
the webpack/tsconfig builders (createWebpackConfig), the complete ordered
layout plan produced by createExtension and its helpers, the name
validation of promptForMissingOptions, and the emitter (directory check,
non-fatal warning, sequential writes).

Fixed template bodies (CSS/HTML/JS literals that do not depend on the
configuration) are represented by dedicated constructors of `Content`;
every configuration-dependent aspect of a file's content (extension
choice, manifest shape, dependency lists, webpack entry points, readme
substitutions) is modelled explicitly.
-/

namespace CreateWebExtension

/-- The resolved generation options handed to createExtension.
`typescript` and `react` are JavaScript truthiness of the corresponding
flags (undefined behaves as false in every conditional they appear in).
`manifestVersion` is `none` when the option was never set (prompts
skipped): the code compares it with strict equality (`=== 3`).
`permissions` is `none` when unset and `some l` when the prompt returned
the array `l` (possibly empty).  `projectName` is the directory basename
used for the manifest and package names. -/
structure Configuration where
  projectName : String
  typescript : Bool
  react : Bool
  manifestVersion : Option Nat
  permissions : Option (List String)
  deriving DecidableEq, Repr

/-- The value of an `action` / `browser_action` manifest key. -/
structure ActionDecl where
  default_popup : String
  default_icon : List (String × String)
  deriving DecidableEq, Repr

/-- The manifest `background` entry: a single service worker (V3 branch)
or a script list with a persistence flag (V2 branch). -/
inductive Background where
  | serviceWorker (script : String)
  | scripts (scripts : List String) ( persistent : Bool)
  deriving DecidableEq, Repr

/-- One content-script rule of the manifest.  The first field embeds the
source's "matches" key (that word is reserved in Lean). -/
structure ContentScriptRule where
  matchPatterns : List String
  js : List String
  deriving DecidableEq, Repr

/-- The generated manifest document.  Key order in the emitted JSON is the
declaration order here (name, description, version, then the
version-dependent keys, then permissions, options_page, icons,
content_scripts), mirroring the property-assignment order of
createManifestFile. -/
structure Manifest where
  name : String
  description : String
  version : String
  manifest_version : Nat
  action : Option ActionDecl
  browser_action : Option ActionDecl
  background : Background
  permissions : List String
  options_page : String
  icons : List (String × String)
  content_scripts : List ContentScriptRule
  deriving DecidableEq, Repr

/-- The icon map used for default_icon and icons (three pixel sizes). -/
def defaultIconMap : List (String × String) :=
  [("16", "assets/icons/icon16.png"),
   ("48", "assets/icons/icon48.png"),
   ("128", "assets/icons/icon128.png")]

/-- The expression `permissions || ["storage", "activeTab"]` of
createManifestFile.  In JavaScript the right operand is taken only when
`permissions` is undefined or null; an array, including the empty array,
is truthy and is kept as is. -/
def resolvePermissions (p : Option (List String)) : List String :=
  match p with
  | none => ["storage", "activeTab"]
  | some l => l

/-- createManifestFile: builds the manifest document.  The branch is the
strict comparison `manifestVersion === 3`; every other value, including an
unset option, takes the else branch and produces a version 2 manifest. -/
def createManifest (c : Configuration) : Manifest :=
  if c.manifestVersion = some 3 then
    { name := c.projectName,
      description := "A Chrome extension created with create-web-extension",
      version := "1.0.0",
      manifest_version := 3,
      action := some { default_popup := "popup.html", default_icon := defaultIconMap },
      browser_action := none,
      background := Background.serviceWorker "background.js",
      permissions := resolvePermissions c.permissions,
      options_page := "options.html",
      icons := defaultIconMap,
      content_scripts := [{ matchPatterns := ["<all_urls>"], js := ["content.js"] }] }
  else
    { name := c.projectName,
      description := "A Chrome extension created with create-web-extension",
      version := "1.0.0",
      manifest_version := 2,
      action := none,
      browser_action := some { default_popup := "popup.html", default_icon := defaultIconMap },
      background := Background.scripts ["background.js"] false,
      permissions := resolvePermissions c.permissions,
      options_page := "options.html",
      icons := defaultIconMap,
      content_scripts := [{ matchPatterns := ["<all_urls>"], js := ["content.js"] }] }

/-- The generated package.json document. -/
structure PackageJson where
  name : String
  version : String
  description : String
  scripts : List (String × String)
  keywords : List String
  author : String
  license : String
  devDependencies : List (String × String)
  dependencies : List (String × String)
  deriving DecidableEq, Repr

/-- The devDependencies shared by every configuration. -/
def baseDevDependencies : List (String × String) :=
  [("@babel/core", "^7.22.5"),
   ("@babel/preset-env", "^7.22.5"),
   ("babel-loader", "^9.1.2"),
   ("copy-webpack-plugin", "^11.0.0"),
   ("css-loader", "^6.8.1"),
   ("eslint", "^8.42.0"),
   ("html-webpack-plugin", "^5.5.3"),
   ("rimraf", "^5.0.1"),
   ("style-loader", "^3.3.3"),
   ("webpack", "^5.86.0"),
   ("webpack-cli", "^5.1.4")]

/-- createPackageJson: object spreads append the conditional dependency
keys after the existing ones (no key collisions occur), so appends model
the insertion order. -/
def createPackageJson (c : Configuration) : PackageJson :=
  let dev1 := if c.typescript then
      baseDevDependencies ++
        [("@babel/preset-typescript", "^7.22.5"),
         ("@types/chrome", "^0.0.237"),
         ("typescript", "^5.1.3"),
         ("ts-loader", "^9.4.3")]
    else baseDevDependencies
  let dev2 := if c.react then dev1 ++ [("@babel/preset-react", "^7.22.5")] else dev1
  let dev3 := if c.react && c.typescript then
      dev2 ++ [("@types/react", "^18.2.12"), ("@types/react-dom", "^18.2.5")]
    else dev2
  { name := c.projectName,
    version := "1.0.0",
    description := "A Chrome extension created with create-web-extension",
    scripts :=
      [("clean", "rimraf dist"),
       ("dev", "webpack --mode=development --watch"),
       ("build", "npm run clean && webpack --mode=production"),
       ("setup", "npm install && npm run build && node scripts/setup-instructions.js"),
       ("lint", "eslint src/**/*.js"),
       ("test", "echo \"Error: no test specified\" && exit 1")],
    keywords := ["chrome", "extension", "browser"],
    author := "",
    license := "MIT",
    devDependencies := dev3,
    dependencies :=
      if c.react then [("react", "^18.2.0"), ("react-dom", "^18.2.0")] else [] }

/-- The configuration-dependent shape of the generated webpack.config.js:
entry-point paths, babel presets, the optional ts-loader rule, the copy
patterns and the resolve extensions. -/
structure WebpackConfig where
  entryPopup : String
  entryOptions : String
  entryBackground : String
  entryContent : String
  babelPresets : List String
  hasTsLoaderRule : Bool
  copyPatterns : List (String × String)
  resolveExtensions : List String
  deriving DecidableEq, Repr

/-- createWebpackConfig (the webpack.config.js template): the popup and
options entry extensions come from the chain
`typescript ? 'tsx' : react ? 'jsx' : 'js'`; background and content use
`typescript ? 'ts' : 'js'`. -/
def createWebpackConfig (typescript react : Bool) : WebpackConfig :=
  let uiExt := if typescript then "tsx" else if react then "jsx" else "js"
  let scriptExt := if typescript then "ts" else "js"
  { entryPopup := "src/popup/index." ++ uiExt,
    entryOptions := "src/options/index." ++ uiExt,
    entryBackground := "src/background/index." ++ scriptExt,
    entryContent := "src/content/index." ++ scriptExt,
    babelPresets :=
      ["@babel/preset-env"] ++
        (if react then ["@babel/preset-react"] else []) ++
        (if typescript then ["@babel/preset-typescript"] else []),
    hasTsLoaderRule := typescript,
    copyPatterns := [("src/manifest.json", "manifest.json"), ("src/assets", "assets")],
    resolveExtensions :=
      [".js"] ++ (if react then [".jsx"] else []) ++
        (if typescript then [".ts", ".tsx"] else []) }

/-- The generated tsconfig.json document. -/
structure TsConfig where
  target : String
  moduleKind : String
  jsx : String
  strict : Bool
  esModuleInterop : Bool
  skipLibCheck : Bool
  forceConsistentCasingInFileNames : Bool
  outDir : String
  rootDir : String
  typeRoots : List String
  includePaths : List String
  excludePaths : List String
  deriving DecidableEq, Repr

/-- The tsconfig written by createWebpackConfig when typescript is set:
only jsx depends on the configuration (`react ? "react" : "preserve"`). -/
def createTsConfig (react : Bool) : TsConfig :=
  { target := "es6",
    moduleKind := "commonjs",
    jsx := if react then "react" else "preserve",
    strict := true,
    esModuleInterop := true,
    skipLibCheck := true,
    forceConsistentCasingInFileNames := true,
    outDir := "./dist",
    rootDir := "./src",
    typeRoots := ["./node_modules/@types"],
    includePaths := ["src/**/*"],
    excludePaths := ["node_modules", "dist"] }

/-- The content written by one plan step.  Constructors without arguments
stand for the fixed template literals of the source (their bodies do not
depend on the configuration); parameterised constructors carry every
configuration-dependent part of the corresponding document. -/
inductive Content where
  | dir
  | setupInstructionsScript
  | manifest (m : Manifest)
  | gitignore
  | backgroundScript (serviceWorkerComment : Bool)
  | contentScript
  | popupHtmlBase
  | optionsHtmlBase
  | popupCss
  | optionsCss
  | popupReactSource
  | optionsReactSource
  | popupDirectScript
  | optionsDirectScript
  | popupVanillaScript
  | optionsVanillaScript
  | popupHtmlVanilla
  | optionsHtmlVanilla
  | popupHtmlDirect
  | optionsHtmlDirect
  | iconPlaceholder (size : Nat)
  | svgIcon
  | structureNote
  | packageDescriptor (p : PackageJson)
  | webpackConfig (w : WebpackConfig)
  | tsconfig (t : TsConfig)
  | readme (typescript react : Bool) (manifestVersion : Option Nat) (name : String)
  deriving DecidableEq, Repr

/-- The icon pixel sizes iterated by createSampleIcons. -/
def iconSizes : List Nat := [16, 48, 128]

/-- The complete ordered layout plan of createExtension: directory
creations and file writes with paths relative to the project root, in the
exact order the source performs them (createProjectStructure,
createManifestFile, createSourceFiles with createHtmlFiles, createUIFiles
and createSampleIcons, createPackageJson, the conditional
createWebpackConfig, createReadme).  Later entries for the same path
overwrite earlier ones, exactly as the sequential writes of the source
do (the UI branch rewrites the popup/options HTML files). -/
def createPlan (c : Configuration) : List (String × Content) :=
  let ext := if c.typescript then "ts" else "js"
  let jsxExt := if c.typescript then "tsx" else "jsx"
  [("src", Content.dir),
   ("src/background", Content.dir),
   ("src/popup", Content.dir),
   ("src/options", Content.dir),
   ("src/content", Content.dir),
   ("src/assets", Content.dir),
   ("src/assets/icons", Content.dir),
   ("scripts", Content.dir),
   ("scripts/setup-instructions.js", Content.setupInstructionsScript),
   ("src/manifest.json", Content.manifest (createManifest c)),
   ("manifest.json", Content.manifest (createManifest c)),
   (".gitignore", Content.gitignore),
   ("src/background/index." ++ ext,
     Content.backgroundScript (decide (c.manifestVersion = some 3))),
   ("background.js", Content.backgroundScript (decide (c.manifestVersion = some 3))),
   ("src/content/index." ++ ext, Content.contentScript),
   ("content.js", Content.contentScript),
   ("src/popup/index.html", Content.popupHtmlBase),
   ("src/options/index.html", Content.optionsHtmlBase),
   ("popup.html", Content.popupHtmlBase),
   ("options.html", Content.optionsHtmlBase),
   ("src/popup/index.css", Content.popupCss),
   ("src/options/index.css", Content.optionsCss),
   ("popup.css", Content.popupCss),
   ("options.css", Content.optionsCss)] ++
  (if c.react then
    [("src/popup/index." ++ jsxExt, Content.popupReactSource),
     ("src/options/index." ++ jsxExt, Content.optionsReactSource),
     ("popup.js", Content.popupDirectScript),
     ("options.js", Content.optionsDirectScript),
     ("popup.html", Content.popupHtmlDirect),
     ("options.html", Content.optionsHtmlDirect)]
   else
    [("src/popup/index.html", Content.popupHtmlVanilla),
     ("src/options/index.html", Content.optionsHtmlVanilla),
     ("src/popup/index." ++ ext, Content.popupVanillaScript),
     ("src/options/index." ++ ext, Content.optionsVanillaScript),
     ("popup.js", Content.popupVanillaScript),
     ("options.js", Content.optionsVanillaScript),
     ("popup.html", Content.popupHtmlDirect),
     ("options.html", Content.optionsHtmlDirect)]) ++
  [("assets", Content.dir),
   ("assets/icons", Content.dir)] ++
  (iconSizes.flatMap fun size =>
    [("src/assets/icons/icon" ++ toString size ++ ".png", Content.iconPlaceholder size),
     ("assets/icons/icon" ++ toString size ++ ".png", Content.iconPlaceholder size)]) ++
  (iconSizes.flatMap fun size =>
    [("src/assets/icons/icon" ++ toString size ++ ".svg", Content.svgIcon),
     ("assets/icons/icon" ++ toString size ++ ".svg", Content.svgIcon)]) ++
  [("STRUCTURE.md", Content.structureNote),
   ("package.json", Content.packageDescriptor (createPackageJson c))] ++
  (if c.react || c.typescript then
    [("webpack.config.js", Content.webpackConfig (createWebpackConfig c.typescript c.react))] ++
      (if c.typescript then [("tsconfig.json", Content.tsconfig (createTsConfig c.react))] else [])
   else []) ++
  [("README.md", Content.readme c.typescript c.react c.manifestVersion c.projectName)]

/-- Whether the plan contains a write (or directory creation) at `p`. -/
def hasPath (plan : List (String × Content)) (p : String) : Bool :=
  plan.any fun e => e.1 == p

/-- The content a path holds after all writes of `fs` ran in order
(the last write wins, matching sequential overwriting). -/
def lookupLast (fs : List (String × Content)) (p : String) : Option Content :=
  (fs.reverse.find? fun e => e.1 == p).map fun e => e.2

/-- The emitter's filesystem log: each write appends to the log. -/
def writeLog (fs : List (String × Content)) (item : String × Content) :
    List (String × Content) :=
  fs ++ [item]

/-- createExtension as the emitter sees it: given the entries already in
the target root directory, it checks `dirContents.length > 0` and, when
the directory is non-empty, only records a warning (the source logs two
yellow lines and falls through); it then performs every planned write in
order.  No branch raises: the result is always `Except.ok`.  The error
type records that a filesystem write failure would be fatal, but the
non-empty-directory check is not a write failure. -/
def runCreateExtension (initial : List (String × Content)) (c : Configuration) :
    Except String (Bool × List (String × Content)) :=
  let warned := decide (0 < initial.length)
  Except.ok (warned, (createPlan c).foldl writeLog initial)

/-- The validation applied by promptForMissingOptions to an interactively
entered project name: the regex `/^([A-Za-z\-_\d])+$/`, i.e. a non-empty
string of ASCII letters, digits, hyphen and underscore. -/
def allowedNameChar (ch : Char) : Bool :=
  ( 'A' ≤ ch && ch ≤ 'Z') || ( 'a' ≤ ch && ch ≤ 'z') || ch.isDigit ||
    ch == '-' || ch == '_'

/-- The project-name regex test of promptForMissingOptions. -/
def validateProjectName (s : String) : Bool :=
  !s.data.isEmpty && s.data.all allowedNameChar

/-- Project-name resolution of program.action plus promptForMissingOptions:
a positional argument is used as given (the name question is only pushed
when no argument was supplied, so a direct argument is never validated);
with skip-prompts and no argument the default "my-web-extension" is used;
interactively the prompt accepts `promptInput` exactly when it passes the
regex, otherwise the prompt rejects it (reprompt, modelled as `none`). -/
def resolveProjectName (arg : Option String) (skipPrompts : Bool)
    (promptInput : String) : Option String :=
  match arg with
  | some s => some s
  | none =>
    if skipPrompts then some "my-web-extension"
    else if validateProjectName promptInput then some promptInput else none

/-- The configuration reaching createExtension on a bare
`--skip-prompts` run (program.action lines 24 to 36): prompts are
bypassed, the target directory defaults to "my-web-extension", the
typescript and react flags are undefined (falsy), and manifestVersion and
permissions are never set. -/
def skipPromptsConfiguration : Configuration :=
  { projectName := "my-web-extension",
    typescript := false,
    react := false,
    manifestVersion := none,
    permissions := none }

/-! ## Claim theorems -/

/-- C1 counterexample: the configuration whose permissions selection is
explicitly empty (every checkbox deselected, so the prompt returns the
empty array) produces a manifest whose permissions list is empty, not the
documented default pair: JavaScript's `||` keeps an empty array because
arrays are truthy. -/
theorem empty_permissions_selection_yields_empty_list :
    (createManifest
        { projectName := "demo", typescript := false, react := false,
          manifestVersion := some 3, permissions := some [] }).permissions = [] ∧
    (createManifest
        { projectName := "demo", typescript := false, react := false,
          manifestVersion := some 3, permissions := some [] }).permissions ≠
      ["storage", "activeTab"] := by
  constructor
  · rfl
  · decide

/-- C1 (amended): an unset permissions option defaults to
["storage", "activeTab"] in the generated manifest, while any supplied
selection, including the empty one, is written verbatim. -/
theorem unset_permissions_default_in_manifest (c : Configuration) :
    (c.permissions = none →
      (createManifest c).permissions = ["storage", "activeTab"]) ∧
    (∀ l, c.permissions = some l → (createManifest c).permissions = l) := by
  constructor
  · intro h
    by_cases h3 : c.manifestVersion = some 3 <;>
      simp [createManifest, h3, resolvePermissions, h]
  · intro l h
    by_cases h3 : c.manifestVersion = some 3 <;>
      simp [createManifest, h3, resolvePermissions, h]

/-- Witness for the amended C1 theorem at concrete configurations. -/
theorem unset_permissions_default_in_manifest_witness :
    (createManifest
        { projectName := "demo", typescript := false, react := false,
          manifestVersion := some 3, permissions := none }).permissions =
      ["storage", "activeTab"] ∧
    (createManifest
        { projectName := "demo", typescript := false, react := false,
          manifestVersion := some 3, permissions := some ["tabs"] }).permissions =
      ["tabs"] :=
  ⟨(unset_permissions_default_in_manifest _).1 rfl,
   (unset_permissions_default_in_manifest _).2 ["tabs"] rfl⟩

/-- C2: on a bare skip-prompts run the manifest version option is never
set, the strict comparison with 3 fails, and the generated manifest is a
version 2 manifest (browser_action and a background script list), not the
version 3 manifest the documented default promises. -/
theorem skip_prompts_run_emits_manifest_version_two :
    (createManifest skipPromptsConfiguration).manifest_version = 2 ∧
    (createManifest skipPromptsConfiguration).action = none ∧
    (createManifest skipPromptsConfiguration).browser_action.isSome = true ∧
    (createManifest skipPromptsConfiguration).background =
      Background.scripts ["background.js"] false := by
  decide

/-- C3: a version 3 configuration yields a manifest with an action key, no
browser_action key and a single service-worker background; a version 2
configuration yields a browser_action key, no action key and a background
script list with the persistence flag false. -/
theorem manifest_shape_matches_schema_version (c : Configuration) :
    (c.manifestVersion = some 3 →
      (createManifest c).action.isSome = true ∧
      (createManifest c).browser_action = none ∧
      (createManifest c).background = Background.serviceWorker "background.js") ∧
    (c.manifestVersion = some 2 →
      (createManifest c).browser_action.isSome = true ∧
      (createManifest c).action = none ∧
      (createManifest c).background = Background.scripts ["background.js"] false) := by
  constructor
  · intro h
    simp [createManifest, h]
  · intro h
    simp [createManifest, h]

/-- Witness for the C3 theorem at a version 3 and a version 2
configuration. -/
theorem manifest_shape_matches_schema_version_witness :
    ((createManifest
        { projectName := "demo", typescript := false, react := false,
          manifestVersion := some 3, permissions := none }).action.isSome = true ∧
      (createManifest
        { projectName := "demo", typescript := false, react := false,
          manifestVersion := some 3, permissions := none }).browser_action = none ∧
      (createManifest
        { projectName := "demo", typescript := false, react := false,
          manifestVersion := some 3, permissions := none }).background =
        Background.serviceWorker "background.js") ∧
    ((createManifest
        { projectName := "demo", typescript := false, react := false,
          manifestVersion := some 2, permissions := none }).browser_action.isSome = true ∧
      (createManifest
        { projectName := "demo", typescript := false, react := false,
          manifestVersion := some 2, permissions := none }).action = none ∧
      (createManifest
        { projectName := "demo", typescript := false, react := false,
          manifestVersion := some 2, permissions := none }).background =
        Background.scripts ["background.js"] false) :=
  ⟨(manifest_shape_matches_schema_version _).1 rfl,
   (manifest_shape_matches_schema_version _).2 rfl⟩

/-- C4: the webpack configuration file is part of the plan exactly when
the react or typescript option is set (`if (react || typescript)` in
createExtension), and the tsconfig file is part of the plan exactly when
the typescript option is set. -/
theorem build_config_emission (c : Configuration) :
    hasPath (createPlan c) "webpack.config.js" = (c.react || c.typescript) ∧
    hasPath (createPlan c) "tsconfig.json" = c.typescript := by
  obtain ⟨n, ts, re, mv, pe⟩ := c
  cases ts <;> cases re <;> exact ⟨rfl, rfl⟩

/-- C5 counterexample: a project name containing a space fails the
prompt validation regex, yet when it is supplied as a direct command-line
argument with skip-prompts set, resolution succeeds with the invalid name
unchanged: the name question is only ever pushed when no argument is
given, so direct arguments are never validated and no InvalidProjectName
failure occurs. -/
theorem invalid_direct_argument_is_accepted :
    validateProjectName "bad name" = false ∧
    resolveProjectName (some "bad name") true "bad name" = some "bad name" := by
  decide

/-- C5 (amended): interactive resolution (no argument, prompts active)
succeeds exactly on names passing the `[A-Za-z0-9_-]+` regex test and
rejects every other input; a direct command-line argument bypasses
validation entirely and always resolves to itself; skip-prompts with no
argument resolves to the default name. -/
theorem name_validation_only_interactive (s : String) :
    resolveProjectName none false s =
      (if validateProjectName s then some s else none) ∧
    (∀ sk : Bool, resolveProjectName (some s) sk s = some s) ∧
    resolveProjectName none true s = some "my-web-extension" :=
  ⟨rfl, fun _ => rfl, rfl⟩

/-- C6: the layout planner is deterministic: two invocations on equal
configurations produce identical plans (the plan is a pure function of
the configuration; no other input reaches it). -/
theorem planner_deterministic (c₁ c₂ : Configuration) (h : c₁ = c₂) :
    createPlan c₁ = createPlan c₂ := by
  rw [h]

/-- Witness for the C6 theorem at a concrete configuration. -/
theorem planner_deterministic_witness :
    createPlan
        { projectName := "demo", typescript := false, react := false,
          manifestVersion := some 3, permissions := none } =
      createPlan
        { projectName := "demo", typescript := false, react := false,
          manifestVersion := some 3, permissions := none } :=
  planner_deterministic _ _ rfl

/-- C8: the typed vanilla scenario (typescript, no react, manifest
version 3, permissions storage and activeTab, name "demo"): the plan
contains tsconfig.json, and the popup, background and content sources
under src/ carry the .ts suffix (and no plain .js popup source is
planned). -/
theorem typed_vanilla_scenario_plan :
    hasPath
        (createPlan
          { projectName := "demo", typescript := true, react := false,
            manifestVersion := some 3,
            permissions := some ["storage", "activeTab"] }) "tsconfig.json" = true ∧
    hasPath
        (createPlan
          { projectName := "demo", typescript := true, react := false,
            manifestVersion := some 3,
            permissions := some ["storage", "activeTab"] }) "src/popup/index.ts" = true ∧
    hasPath
        (createPlan
          { projectName := "demo", typescript := true, react := false,
            manifestVersion := some 3,
            permissions := some ["storage", "activeTab"] }) "src/background/index.ts" = true ∧
    hasPath
        (createPlan
          { projectName := "demo", typescript := true, react := false,
            manifestVersion := some 3,
            permissions := some ["storage", "activeTab"] }) "src/content/index.ts" = true ∧
    hasPath
        (createPlan
          { projectName := "demo", typescript := true, react := false,
            manifestVersion := some 3,
            permissions := some ["storage", "activeTab"] }) "src/popup/index.js" = false := by
  decide

/-- C9: for the typed vanilla configuration the generated webpack
configuration's popup and options entry points name .tsx files
(`typescript ? 'tsx' : react ? 'jsx' : 'js'`), but the plan writes the
popup and options sources with the .ts suffix and creates no .tsx file,
so those entry points reference files the planner never writes. -/
theorem webpack_entry_points_dangle_for_typed_vanilla :
    (createWebpackConfig true false).entryPopup = "src/popup/index.tsx" ∧
    (createWebpackConfig true false).entryOptions = "src/options/index.tsx" ∧
    lookupLast
        (createPlan
          { projectName := "demo", typescript := true, react := false,
            manifestVersion := some 3, permissions := none }) "webpack.config.js" =
      some (Content.webpackConfig (createWebpackConfig true false)) ∧
    hasPath
        (createPlan
          { projectName := "demo", typescript := true, react := false,
            manifestVersion := some 3, permissions := none }) "src/popup/index.tsx" = false ∧
    hasPath
        (createPlan
          { projectName := "demo", typescript := true, react := false,
            manifestVersion := some 3, permissions := none }) "src/popup/index.ts" = true ∧
    hasPath
        (createPlan
          { projectName := "demo", typescript := true, react := false,
            manifestVersion := some 3, permissions := none }) "src/options/index.tsx" = false ∧
    hasPath
        (createPlan
          { projectName := "demo", typescript := true, react := false,
            manifestVersion := some 3, permissions := none }) "src/options/index.ts" = true := by
  decide

/-- C10: every configuration's plan writes the manifest document to both
src/manifest.json (build path) and manifest.json at the project root
(direct-load path), and the two writes carry the same document. -/
theorem manifest_written_to_both_locations (c : Configuration) :
    lookupLast (createPlan c) "src/manifest.json" =
      some (Content.manifest (createManifest c)) ∧
    lookupLast (createPlan c) "manifest.json" =
      some (Content.manifest (createManifest c)) := by
  obtain ⟨n, ts, re, mv, pe⟩ := c
  cases ts <;> cases re <;> exact ⟨rfl, rfl⟩

/-- find? on an appended list returns the match found in the first part. -/
theorem find?_append_of_some {α : Type} (f : α → Bool) (l₁ l₂ : List α) (a : α)
    (h : l₁.find? f = some a) : (l₁ ++ l₂).find? f = some a := by
  induction l₁ with
  | nil => simp [List.find?] at h
  | cons x xs ih =>
    cases hfx : f x with
    | true =>
      rw [List.find?_cons_of_pos _ hfx] at h
      rw [List.cons_append, List.find?_cons_of_pos _ hfx]
      exact h
    | false =>
      have hfx2 : ¬f x = true := by simp [hfx]
      rw [List.find?_cons_of_neg _ hfx2] at h
      rw [List.cons_append, List.find?_cons_of_neg _ hfx2]
      exact ih h

/-- Folding the emitter's write step over a plan appends the plan to the
initial log. -/
theorem foldl_writeLog_eq_append (plan initial : List (String × Content)) :
    plan.foldl writeLog initial = initial ++ plan := by
  induction plan generalizing initial with
  | nil => simp
  | cons x xs ih =>
    rw [List.foldl_cons, ih]
    simp [writeLog]

/-- A write recorded by the later part of a log survives prepending
arbitrary earlier entries. -/
theorem lookupLast_append_of_some (l₁ l₂ : List (String × Content)) (p : String)
    (v : Content) (h : lookupLast l₂ p = some v) :
    lookupLast (l₁ ++ l₂) p = some v := by
  unfold lookupLast at h ⊢
  obtain ⟨e, he, hv⟩ := Option.map_eq_some'.mp h
  rw [List.reverse_append, find?_append_of_some _ _ _ _ he]
  simp [hv]

/-- C7: generating into a pre-populated target directory is never fatal:
for every initial directory content the run returns ok — the only effect
of pre-existing entries is the warning flag — and every planned write
still lands, with the planned content, in the final filesystem. -/
theorem nonempty_target_directory_nonfatal (initial : List (String × Content))
    (c : Configuration) (p : String) (v : Content)
    (h : lookupLast (createPlan c) p = some v) :
    runCreateExtension initial c =
      Except.ok (decide (0 < initial.length), initial ++ createPlan c) ∧
    lookupLast (initial ++ createPlan c) p = some v := by
  constructor
  · unfold runCreateExtension
    rw [foldl_writeLog_eq_append]
  · exact lookupLast_append_of_some initial (createPlan c) p v h

/-- Witness for the C7 theorem: a target directory already holding a file
still yields an ok run whose final state holds the planned README. -/
theorem nonempty_target_directory_nonfatal_witness :
    runCreateExtension [("stale.txt", Content.gitignore)]
        { projectName := "demo", typescript := false, react := false,
          manifestVersion := some 3, permissions := none } =
      Except.ok
        (decide (0 < [("stale.txt", Content.gitignore)].length),
          [("stale.txt", Content.gitignore)] ++
            createPlan
              { projectName := "demo", typescript := false, react := false,
                manifestVersion := some 3, permissions := none }) ∧
    lookupLast
        ([("stale.txt", Content.gitignore)] ++
          createPlan
            { projectName := "demo", typescript := false, react := false,
              manifestVersion := some 3, permissions := none }) "README.md" =
      some (Content.readme false false (some 3) "demo") :=
  nonempty_target_directory_nonfatal _ _ _ _ (by rfl)

end CreateWebExtension
